import Mathlib

/-!
Shallow embedding of the user-endpoint authorization core of the
`unterstrich` repository (Go package `users`, file `src/users/users.go`),
together with proofs about its behaviour.

Each HTTP handler is modelled as a pure function from a request (route
parameter string, session-claim subject, JSON body) and the persisted
store to a response and an updated store.  Third-party collaborators
(gorm, the gin JSON binder, encoding/json, bcrypt) are modelled by their
documented semantics at exactly the call sites the handlers use; each
model carries a comment naming the behaviour it reflects.
-/

namespace Users

/-- `User` is the user model (`users.go` lines 32-47).  Go field names are
kept.  The first field is the numeric primary key contributed by the
embedded `model.Base`.  Modelled from the spec: the `model` package is not
under `src/`; the spec describes its contribution as a "unique numeric id
(assigned at creation, immutable)", blank (zero) until creation assigns
it.  The defaults are the Go zero values, so `{}` is `var me User`.
`Address`, `Social` and `Artworks` are sub-record references that no
modelled handler reads or writes; they are elided. -/
structure User where
  ID : Nat := 0
  Email : String := ""
  -- json tag "-": never serialized outward, never bound from a body
  Password : String := ""
  Firstname : String := ""
  Lastname : String := ""
  Username : String := ""
  -- json "is_artist"
  Artist : Bool := false
  -- json "is_curator"
  Curator : Bool := false
  -- json tag "-": never serialized outward, never bound from a body
  Admin : Bool := false
  -- json "is_staff"
  Staff : Bool := false
deriving Repr, DecidableEq

/-- `CreationUser` is the user model on creation (`users.go` lines 49-56).
It has no staff, admin, or id field at all. -/
structure CreationUser where
  Email : String
  Password : String
  Username : String
  Artist : Bool
  Curator : Bool
deriving Repr, DecidableEq

/-- A JSON request body, restricted to the scalar members that the two
bind targets (`User`, `CreationUser`) tag.  `none` models an absent
member (encoding/json then leaves the Go field at its zero value);
`some v` models a present member.  Members that neither target tags
(and sub-record members) are ignored by encoding/json and are elided. -/
structure Body where
  email : Option String := none
  password : Option String := none
  username : Option String := none
  firstname : Option String := none
  lastname : Option String := none
  is_artist : Option Bool := none
  is_curator : Option Bool := none
  is_staff : Option Bool := none
  is_admin : Option Bool := none
deriving Repr, DecidableEq

/-- The digits of a decimal literal, most significant first, folded into
a number; `none` as soon as a non-digit appears. -/
def digitsToNat : List Char → Nat → Option Nat
  | [], acc => some acc
  | c :: cs, acc =>
    if c.isDigit then digitsToNat cs (acc * 10 + (c.toNat - 48)) else none

/-- `strconv.Atoi`: an optional sign followed by at least one decimal
digit; anything else is an error (`none`). -/
def strconvAtoi (s : String) : Option Int :=
  match s.data with
  | [] => none
  | '+' :: cs => if cs = [] then none else (digitsToNat cs 0).map Int.ofNat
  | '-' :: cs => if cs = [] then none else (digitsToNat cs 0).map (fun n => -(n : Int))
  | cs => (digitsToNat cs 0).map Int.ofNat

/-- The persisted user table plus the auto-increment counter gorm keeps
for the primary key. -/
structure Store where
  users : List User := []
  nextId : Nat := 1
deriving Repr, DecidableEq

/-- `db.First(&dest, id)` through a valid pointer: the first row whose
primary key equals `id`. -/
def firstById (st : Store) (id : Int) : Option User :=
  st.users.find? (fun u => ((u.ID : Int) == id : Bool))

/-- `db.Where("username = ?", name).First(&dest)` through a valid
pointer: the first row with the given username. -/
def firstByUsername (st : Store) (name : String) : Option User :=
  st.users.find? (fun u => u.Username == name)

/-- gorm `db.NewRecord(v)`: true iff the primary key of `v` holds its
blank value.  It inspects the value only and never queries the
database. -/
def NewRecord (u : User) : Bool := u.ID == 0

/-- gorm `db.Create(&u)`: assigns the next auto-increment primary key and
appends the row. -/
def dbCreate (st : Store) (u : User) : Store × User :=
  let u := { u with ID := st.nextId }
  ({ users := st.users ++ [u], nextId := st.nextId + 1 }, u)

/-- gorm `db.Delete(&u)`: removes the rows with the primary key of
`u`. -/
def dbDelete (st : Store) (u : User) : Store :=
  { st with users := st.users.filter (fun v => v.ID != u.ID) }

/-- gorm `db.Save(&u)`: updates the row with the primary key of `u`, or
inserts it when no such row exists. -/
def dbSave (st : Store) (u : User) : Store :=
  if st.users.any (fun v => v.ID == u.ID) then
    { st with users := st.users.map (fun v => if v.ID == u.ID then u else v) }
  else
    { st with users := st.users ++ [u] }

/-- gorm `db.First(dest, id)` where `dest` is a possibly-nil `*User`
(declared `var user *User` and never allocated): gorm cannot write a row
through a nil pointer (reflect.Indirect of a nil pointer is not a
struct, so the query callback records an error and scans nothing), so
afterwards the pointer is exactly what it was before. -/
def firstIntoPtr (st : Store) (dest : Option User) (id : Int) : Option User :=
  match dest with
  | none => none
  | some _ =>
    match firstById st id with
    | some u => some u
    | none => dest

/-- `c.ShouldBindJSON(&jsonuser)` with a `CreationUser` destination:
encoding/json fills the five tagged members (absent members keep the Go
zero value, unknown members such as `is_staff` or `is_admin` are
ignored), then the `binding:"required"` validator on `Email`, `Password`
and `Username` rejects zero values, i.e. empty strings. -/
def bindCreationUser (b : Body) : Option CreationUser :=
  let e := b.email.getD ""
  let p := b.password.getD ""
  let u := b.username.getD ""
  if e = "" || p = "" || u = "" then none
  else
    some { Email := e, Password := p, Username := u,
           Artist := b.is_artist.getD false, Curator := b.is_curator.getD false }

/-- encoding/json unmarshalling a body onto an existing `User` value:
members with json tags are written over the corresponding fields, absent
members leave the field as it was, and `Password` and `Admin` are tagged
`json:"-"` so no body member can reach them. -/
def bindUserFields (u : User) (b : Body) : User :=
  { u with
    Email := b.email.getD u.Email,
    Firstname := b.firstname.getD u.Firstname,
    Lastname := b.lastname.getD u.Lastname,
    Username := b.username.getD u.Username,
    Artist := b.is_artist.getD u.Artist,
    Curator := b.is_curator.getD u.Curator,
    Staff := b.is_staff.getD u.Staff }

/-- `ShouldBindJSON` onto an existing `User`: unmarshal the tagged
members, then the `binding:"required"` validator on `Email` and
`Username` rejects zero values. -/
def bindUserBody (u : User) (b : Body) : Option User :=
  let u2 := bindUserFields u b
  if u2.Email = "" || u2.Username = "" then none else some u2

/-- `c.ShouldBindJSON(user)` where `user` is a possibly-nil `*User`:
`json.Unmarshal` into a nil pointer fails with `InvalidUnmarshalError`
before reading any member, so binding errors whenever the pointer is
nil. -/
def bindJSONIntoPtr (dest : Option User) (b : Body) : Option User :=
  match dest with
  | none => none
  | some u => bindUserBody u b

/-- The response a handler writes: one constructor per distinct
(status, body) exit that the user handlers have.  The comments give the
Go call and, where the spec names the outcome, the taxonomy name from
section 7 of the spec. -/
inductive HResult where
  -- c.JSON(http.StatusOK, u)  (spec: Success with a record)
  | okUser (u : User)
  -- c.String(http.StatusOK, "")  (spec: Success, empty body)
  | okString
  -- 400 "ID must be numerical" / "Invalid ID: must be numerical"  (spec: ValidationFailure)
  | invalidID
  -- 400 "Invalid body: ..."  (spec: ValidationFailure)
  | invalidBody
  -- 400 "User already present: ..."  (spec: Conflict)
  | userPresent
  -- 403 "Cannot create admin user"  (spec: PrivilegeEscalation)
  | cannotCreateAdmin
  -- 403 "Cannot make user admin"  (spec: PrivilegeEscalation)
  | cannotMakeAdmin
  -- 403 "Cannot alter foreign user"  (identity denial)
  | foreignUser
  -- 404 "Invalid ID: not found" / "Not found"  (spec: NotFound)
  | notFound
  -- 500 ""  (spec: CryptoFailure)
  | internalError
deriving Repr, DecidableEq

/-- The JSON object `c.JSON` renders for a `User`: one member per field
whose json tag is not `"-"`, in declaration order; `Password` and
`Admin` are tagged `"-"` and encoding/json omits them.  Member values
are rendered as strings here because only the key set matters to the
properties below; the elided sub-record members and `model.Base`
timestamps carry no password either. -/
def userJSON (u : User) : List (String × String) :=
  [("ID", toString u.ID),
   ("email", u.Email),
   ("firstname", u.Firstname),
   ("lastname", u.Lastname),
   ("username", u.Username),
   ("is_artist", toString u.Artist),
   ("is_curator", toString u.Curator),
   ("is_staff", toString u.Staff)]

/-- `GetMe` (`users.go` lines 123-130): one lookup by the session-claim
subject into `var me User`; `me` starts zero-valued and a zero-row
result leaves it zero-valued; the result is returned with status 200
unconditionally. -/
def GetMe (st : Store) (claimId : String) : HResult :=
  let me := (firstByUsername st claimId).getD {}
  .okUser me

/-- `GetUser` (`users.go` lines 103-121): parse the id, look the row up
through the never-allocated pointer `var user *User`, 404 when the
pointer is still nil, else return the row. -/
def GetUser (st : Store) (idStr : String) : HResult :=
  match strconvAtoi idStr with
  | none => .invalidID
  | some id =>
    let user : Option User := none
    let user := firstIntoPtr st user id
    match user with
    | none => .notFound
    | some u => .okUser u

/-- `CreateUser` (`users.go` lines 132-168).  `hashFn` stands for
`bcrypt.GenerateFromPassword`: any function from plaintext and cost to
either a hash (`some`) or a failure (`none`); the handler passes cost 12
and the embedding is parametric in the function itself so theorems
quantify over every possible hasher. -/
def CreateUser (hashFn : String → Nat → Option String) (st : Store) (b : Body) :
    HResult × Store :=
  match bindCreationUser b with
  | none => (.invalidBody, st)
  | some jsonuser =>
    let user : User :=
      { Email := jsonuser.Email, Username := jsonuser.Username,
        Password := jsonuser.Password, Artist := jsonuser.Artist,
        Curator := jsonuser.Curator }
    if !(NewRecord user) then (.userPresent, st)
    else if user.Staff || user.Admin then (.cannotCreateAdmin, st)
    else
      match hashFn user.Password 12 with
      | none => (.internalError, st)
      | some pw =>
        let user := { user with Password := pw }
        let (st, user) := dbCreate st user
        (.okUser user, st)

/-- `DeleteUser` (`users.go` lines 170-199): parse the id, look the row
up through the never-allocated pointer `var user *User`, 404 when the
pointer is still nil, else resolve the caller by claim subject and
delete only on matching ids. -/
def DeleteUser (st : Store) (idStr : String) (claimId : String) : HResult × Store :=
  match strconvAtoi idStr with
  | none => (.invalidID, st)
  | some id =>
    let user : Option User := none
    let user := firstIntoPtr st user id
    match user with
    | none => (.notFound, st)
    | some u =>
      let me := (firstByUsername st claimId).getD {}
      if u.ID != me.ID then (.foreignUser, st)
      else (.okString, dbDelete st u)

/-- `UpdateUser` (`users.go` lines 201-241): parse the id, bind the body
into the never-allocated pointer `var user *User`, then (on the branches
after a successful bind) 404 on a blank primary key, load `other` —
passed to `db.First` by value, so gorm cannot write into it and it stays
zero-valued — reject staff/admin changes relative to `other`, reject a
caller whose resolved id differs from the bound id, else save. -/
def UpdateUser (st : Store) (idStr : String) (claimId : String) (b : Body) :
    HResult × Store :=
  match strconvAtoi idStr with
  | none => (.invalidID, st)
  | some id =>
    let userPtr : Option User := none
    match bindJSONIntoPtr userPtr b with
    | none => (.invalidBody, st)
    | some user =>
      if NewRecord user then (.notFound, st)
      else
        let other : User := {}
        let _ := firstById st id
        if (user.Staff && !other.Staff) || (user.Admin && !other.Admin) then
          (.cannotMakeAdmin, st)
        else
          let me := (firstByUsername st claimId).getD {}
          if user.ID != me.ID then (.foreignUser, st)
          else (.okUser user, dbSave st user)


/-! ## Sample data and binder-level notions used by the theorems -/

/-- A concrete stand-in for `bcrypt.GenerateFromPassword` used when a
theorem is evaluated at one input: it always succeeds and prefixes the
plaintext with a modular-crypt header, so its output never equals its
input. -/
def constHash : String → Nat → Option String := fun s _c => some ("$2a$12$" ++ s)

/-- Two bodies that agree on every modelled member except `is_admin`. -/
def Body.sameExceptAdmin (b1 b2 : Body) : Prop :=
  b1.email = b2.email ∧ b1.password = b2.password ∧ b1.username = b2.username ∧
  b1.firstname = b2.firstname ∧ b1.lastname = b2.lastname ∧
  b1.is_artist = b2.is_artist ∧ b1.is_curator = b2.is_curator ∧
  b1.is_staff = b2.is_staff

/-- Two bodies that agree on every modelled member except `is_staff`. -/
def Body.sameExceptStaff (b1 b2 : Body) : Prop :=
  b1.email = b2.email ∧ b1.password = b2.password ∧ b1.username = b2.username ∧
  b1.firstname = b2.firstname ∧ b1.lastname = b2.lastname ∧
  b1.is_artist = b2.is_artist ∧ b1.is_curator = b2.is_curator ∧
  b1.is_admin = b2.is_admin

def c1Body : Body :=
  { email := some "b@x.com", password := some "pw", username := some "bob",
    is_staff := some true, is_admin := some true }

def c2Amy : User := { ID := 1, Email := "a@x.com", Password := "h", Username := "amy" }

def c2Store : Store := { users := [c2Amy], nextId := 2 }

def c2Body : Body :=
  { email := some "a@x.com", username := some "amy", is_staff := some true }

def c3Amy : User := { ID := 1, Email := "a@x.com", Password := "h", Username := "amy" }

def c3Store : Store := { users := [c3Amy], nextId := 2 }

def c3Body : Body :=
  { email := some "a@x.com", password := some "pw", username := some "amy" }

def c4Amy : User := { ID := 1, Email := "a@x.com", Password := "h", Username := "amy" }

def c4Store : Store := { users := [c4Amy], nextId := 2 }

def c4Body : Body :=
  { email := some "a@x.com", password := some "pw", username := some "amy",
    is_staff := some true }

def w5Amy : User := { ID := 1, Email := "a@x.com", Password := "h", Username := "amy" }

def w5Bob : User := { ID := 2, Email := "b@x.com", Password := "h", Username := "bob" }

def w5Store : Store := { users := [w5Amy, w5Bob], nextId := 3 }

def w5Body : Body :=
  { email := some "b@x.com", username := some "bob", is_staff := some true }

def c6Amy : User := { ID := 1, Email := "a@x.com", Password := "h", Username := "amy" }

def c6Store : Store := { users := [c6Amy], nextId := 2 }

def c7Amy : User := { ID := 1, Email := "a@x.com", Password := "h", Username := "amy" }

def c7Store : Store := { users := [c7Amy], nextId := 2 }

def c8Body : Body :=
  { email := some "a@x.com", password := some "pw", username := some "amy",
    is_artist := some true }

def w10Amy : User := { ID := 1, Email := "a@x.com", Password := "h", Username := "amy" }

def w10Store : Store := { users := [w10Amy], nextId := 2 }

def w10Body : Body := { email := some "a@x.com", username := some "amy" }


/-! ## Claim theorems -/

/-- Claim C1, counterexample: a create request whose body sets
`is_staff=true` and `is_admin=true` is NOT rejected with the forbidden
`Cannot create admin user` answer; it succeeds and a record is stored
(with both flags false), because `CreationUser` binds neither flag. -/
theorem c1_staff_flag_create_not_rejected :
    (CreateUser constHash {} c1Body).1 =
      HResult.okUser
        { ID := 1, Email := "b@x.com", Password := "$2a$12$pw", Username := "bob" } ∧
    (CreateUser constHash {} c1Body).1 ≠ HResult.cannotCreateAdmin ∧
    (CreateUser constHash {} c1Body).2.users.length = 1 := by
  decide

/-- Claim C1 (amended): a create-User body cannot set `is_staff` or
`is_admin` at all — `CreationUser` binds neither member — so for every
hasher, store and body the handler never answers
`Cannot create admin user`, and any record it appends has
`Staff = false` and `Admin = false`. -/
theorem createUser_ignores_privilege_flags (hashFn : String → Nat → Option String)
    (st : Store) (b : Body) :
    (CreateUser hashFn st b).1 ≠ HResult.cannotCreateAdmin ∧
    ((CreateUser hashFn st b).2.users = st.users ∨
      ∃ u, (CreateUser hashFn st b).2.users = st.users ++ [u] ∧
        u.Staff = false ∧ u.Admin = false) := by
  unfold CreateUser
  cases hb : bindCreationUser b with
  | none => simp
  | some cu =>
    simp only [NewRecord]
    cases hh : hashFn cu.Password 12 with
    | none => simp [hh]
    | some pw =>
      simp [hh, dbCreate]

/-- Claim C2: at the concrete update request where the non-staff
principal `amy` targets her own record with a body flipping `is_staff`
to true, the handler answers `Invalid body` (binding into the nil
`*User` fails) and not the `Cannot make user admin` rejection the claim
describes; no privilege logic ever runs. -/
theorem c2_update_rejected_before_privilege_logic :
    UpdateUser c2Store "1" "amy" c2Body = (HResult.invalidBody, c2Store) ∧
    HResult.invalidBody ≠ HResult.cannotMakeAdmin := by
  decide

/-- Claim C3: at the concrete create request whose username and email
both equal those of the already-stored user `amy`, the handler does not
answer `User already present`; it answers success and appends a second
`amy` row, because `db.NewRecord` only tests the blank primary key of
the freshly built record and never queries the table. -/
theorem c3_duplicate_create_succeeds :
    (CreateUser constHash c3Store c3Body).1 ≠ HResult.userPresent ∧
    (CreateUser constHash c3Store c3Body).1 =
      HResult.okUser
        { ID := 2, Email := "a@x.com", Password := "$2a$12$pw", Username := "amy" } ∧
    (CreateUser constHash c3Store c3Body).2.users.map User.Username = ["amy", "amy"] := by
  decide


/-- Claim C4, counterexample: at the concrete create request that (in
the sense of the spec) fails both the privilege check (`is_staff=true`
in the body) and the uniqueness check (username and email already
stored), the surfaced result is neither the privilege error nor the
conflict error but plain success — so no check-ordering is observed at
all, and in the source the uniqueness branch even precedes the
privilege branch. -/
theorem c4_multi_failure_surfaces_success :
    (CreateUser constHash c4Store c4Body).1 ≠ HResult.cannotCreateAdmin ∧
    (CreateUser constHash c4Store c4Body).1 ≠ HResult.userPresent ∧
    (CreateUser constHash c4Store c4Body).1 =
      HResult.okUser
        { ID := 2, Email := "a@x.com", Password := "$2a$12$pw", Username := "amy" } := by
  decide

/-- Claim C4 (amended): the branch order in the source is uniqueness
before privilege in `CreateUser` and privilege before identity in
`UpdateUser`, but none of these branches is reachable: for every hasher,
store and request, `CreateUser` never surfaces `User already present` or
`Cannot create admin user`, and `UpdateUser` always surfaces a
validation failure — so no caller, wrong-identity or otherwise, ever
observes a conflict or privilege-flag error. -/
theorem conflict_and_privilege_errors_unreachable
    (hashFn : String → Nat → Option String) (st : Store) (b : Body)
    (idStr claimId : String) :
    (CreateUser hashFn st b).1 ≠ HResult.userPresent ∧
    (CreateUser hashFn st b).1 ≠ HResult.cannotCreateAdmin ∧
    ((UpdateUser st idStr claimId b).1 = HResult.invalidID ∨
      (UpdateUser st idStr claimId b).1 = HResult.invalidBody) := by
  refine ⟨?_, ?_, ?_⟩
  · unfold CreateUser
    cases hb : bindCreationUser b with
    | none => simp
    | some cu =>
      simp only [NewRecord]
      cases hh : hashFn cu.Password 12 with
      | none => simp [hh]
      | some pw => simp [hh]
  · unfold CreateUser
    cases hb : bindCreationUser b with
    | none => simp
    | some cu =>
      simp only [NewRecord]
      cases hh : hashFn cu.Password 12 with
      | none => simp [hh]
      | some pw => simp [hh]
  · unfold UpdateUser
    cases hid : strconvAtoi idStr with
    | none => simp
    | some i => simp [bindJSONIntoPtr]

/-- Claim C5: an update request aimed at a target record other than the
principal, from a non-staff non-admin principal, never succeeds and
leaves the store — in particular the target row, re-read afterwards —
exactly as it was. -/
theorem updateUser_foreign_nonstaff_no_mutation (st : Store)
    (idStr claimId : String) (b : Body) (i : Int) (target me : User)
    (hid : strconvAtoi idStr = some i)
    (ht : firstById st i = some target)
    (hm : firstByUsername st claimId = some me)
    (hne : target.ID ≠ me.ID) (hst : me.Staff = false) (had : me.Admin = false) :
    (∀ u, (UpdateUser st idStr claimId b).1 ≠ HResult.okUser u) ∧
    (UpdateUser st idStr claimId b).2 = st ∧
    firstById (UpdateUser st idStr claimId b).2 i = some target := by
  unfold UpdateUser
  rw [hid]
  simp [bindJSONIntoPtr, ht]

/-- Claim C5, witness: the non-staff principal `amy` (id 1) sends an
update for target id 2; the call does not succeed and the store, and
the re-read target row, are unchanged. -/
theorem updateUser_foreign_nonstaff_no_mutation_witness :
    (∀ u, (UpdateUser w5Store "2" "amy" w5Body).1 ≠ HResult.okUser u) ∧
    (UpdateUser w5Store "2" "amy" w5Body).2 = w5Store ∧
    firstById (UpdateUser w5Store "2" "amy" w5Body).2 2 = some w5Bob :=
  updateUser_foreign_nonstaff_no_mutation w5Store "2" "amy" w5Body 2 w5Bob w5Amy
    (by decide) (by decide) (by decide) (by decide) rfl rfl

/-- Claim C6: at the concrete self-deletion request — the stored user
`amy` (id 1) deletes `/users/1` herself — the handler answers
`Not found` and the row is still present, because the row is looked up
through a nil `*User` that the lookup cannot write; so self-deletion
never succeeds and no row is ever removed. -/
theorem c6_self_delete_returns_notFound :
    DeleteUser c6Store "1" "amy" = (HResult.notFound, c6Store) ∧
    firstById c6Store 1 = some c6Amy := by
  decide


/-- Claim C7, counterexample: with the store holding only `amy` and a
session claim whose subject `ghost` matches no row, `GetMe` does not
treat the zero-row lookup as an authentication failure: it answers
success carrying the zero-valued user. -/
theorem c7_getMe_unknown_claim_returns_zero_user :
    GetMe c7Store "ghost" = HResult.okUser {} ∧
    HResult.okUser ({} : User) ≠ HResult.notFound := by
  decide

/-- Claim C7 (amended): resolving the session claim is a single lookup
by username, but a zero-row result is not surfaced as `Not found`: the
resolved principal stays the zero-valued `User` and `GetMe` returns it
with success. -/
theorem getMe_zero_rows_zero_valued_success (st : Store) (c : String)
    (h : ∀ u ∈ st.users, u.Username ≠ c) :
    GetMe st c = HResult.okUser {} := by
  unfold GetMe firstByUsername
  have hn : st.users.find? (fun u => u.Username == c) = none :=
    List.find?_eq_none.mpr (fun u hu => by simpa using h u hu)
  rw [hn]
  rfl

/-- Claim C7 (amended), witness: concrete store holding `amy` only, and
a claim subject matching no row. -/
theorem getMe_zero_rows_zero_valued_success_witness :
    GetMe c7Store "nobody" = HResult.okUser {} :=
  getMe_zero_rows_zero_valued_success c7Store "nobody" (by decide)

/-- Claim C8: once a create body binds, the handler hashes the bound
password at cost 12 and nothing else: a hashing failure aborts the
request with the empty 500 answer and stores nothing, and a hashing
success stores exactly one new record whose password field holds the
hash output — so not the plaintext whenever the hash differs from it —
and the serialized response has no password member at all. -/
theorem createUser_password_handling (hashFn : String → Nat → Option String)
    (st : Store) (b : Body) (cu : CreationUser)
    (hb : bindCreationUser b = some cu) :
    (hashFn cu.Password 12 = none →
      CreateUser hashFn st b = (HResult.internalError, st)) ∧
    (∀ h, hashFn cu.Password 12 = some h →
      ∃ stored,
        CreateUser hashFn st b =
          (HResult.okUser stored,
            { users := st.users ++ [stored], nextId := st.nextId + 1 }) ∧
        stored.Password = h ∧
        (h ≠ cu.Password → stored.Password ≠ cu.Password) ∧
        (userJSON stored).map Prod.fst =
          ["ID", "email", "firstname", "lastname", "username",
           "is_artist", "is_curator", "is_staff"] ∧
        "password" ∉ (userJSON stored).map Prod.fst) := by
  constructor
  · intro hf
    unfold CreateUser
    rw [hb]
    simp [NewRecord, hf]
  · intro h hh
    refine ⟨{ ID := st.nextId, Email := cu.Email, Password := h,
              Username := cu.Username, Artist := cu.Artist,
              Curator := cu.Curator }, ?_, rfl, ?_, ?_, ?_⟩
    · unfold CreateUser
      rw [hb]
      simp [NewRecord, hh, dbCreate]
    · intro hne
      exact hne
    · simp [userJSON]
    · simp [userJSON]
  
/-- Claim C8, witness: creating `amy` with password `pw` over the empty
store, with a concrete hasher. -/
theorem createUser_password_handling_witness :
    ∃ stored,
      CreateUser constHash {} c8Body =
        (HResult.okUser stored, { users := [stored], nextId := 2 }) ∧
      stored.Password = "$2a$12$pw" ∧
      (("$2a$12$pw" : String) ≠ "pw" → stored.Password ≠ "pw") ∧
      (userJSON stored).map Prod.fst =
        ["ID", "email", "firstname", "lastname", "username",
         "is_artist", "is_curator", "is_staff"] ∧
      "password" ∉ (userJSON stored).map Prod.fst :=
  (createUser_password_handling constHash {} c8Body
      { Email := "a@x.com", Password := "pw", Username := "amy",
        Artist := true, Curator := false }
      (by decide)).2 "$2a$12$pw" (by decide)

/-- Claim C9: no JSON body member can influence the `Admin` flag of a
bound record: two bodies that agree everywhere except on `is_admin`
bind to the same `CreationUser` and onto the same `User`; by contrast
`is_staff` has no such structural exclusion on the `User` bind target. -/
theorem admin_member_cannot_influence_binding (b1 b2 : Body) (u : User)
    (h : Body.sameExceptAdmin b1 b2) :
    bindCreationUser b1 = bindCreationUser b2 ∧
    bindUserFields u b1 = bindUserFields u b2 ∧
    bindUserBody u b1 = bindUserBody u b2 ∧
    (∃ d1 d2 : Body, Body.sameExceptStaff d1 d2 ∧
      bindUserFields u d1 ≠ bindUserFields u d2) := by
  obtain ⟨h1, h2, h3, h4, h5, h6, h7, h8⟩ := h
  refine ⟨?_, ?_, ?_, ?_⟩
  · unfold bindCreationUser
    rw [h1, h2, h3, h6, h7]
  · unfold bindUserFields
    rw [h1, h3, h4, h5, h6, h7, h8]
  · unfold bindUserBody bindUserFields
    rw [h1, h3, h4, h5, h6, h7, h8]
  · refine ⟨{ is_staff := some true }, { is_staff := some false },
      ⟨rfl, rfl, rfl, rfl, rfl, rfl, rfl, rfl⟩, ?_⟩
    simp [bindUserFields]

/-- Claim C9, witness: a body whose only member is `is_admin:true`
binds exactly like the empty body. -/
theorem admin_member_cannot_influence_binding_witness :
    bindCreationUser { is_admin := some true } = bindCreationUser ({} : Body) ∧
    bindUserFields {} { is_admin := some true } = bindUserFields {} ({} : Body) ∧
    bindUserBody {} { is_admin := some true } = bindUserBody {} ({} : Body) ∧
    (∃ d1 d2 : Body, Body.sameExceptStaff d1 d2 ∧
      bindUserFields {} d1 ≠ bindUserFields {} d2) :=
  admin_member_cannot_influence_binding { is_admin := some true } {} {}
    ⟨rfl, rfl, rfl, rfl, rfl, rfl, rfl, rfl⟩

/-- Claim C10: the three handlers that route through the never-allocated
`var user *User` are dead beyond their early exits: for every store and
every request whose id parameter parses, `GetUser` and `DeleteUser`
answer `Not found` (the pointer stays nil, no row is deleted) and
`UpdateUser` answers `Invalid body` (binding into the nil pointer
fails), whatever the body and whoever the caller is. -/
theorem nil_target_handlers_unreachable (st : Store) (idStr claimId : String)
    (b : Body) (i : Int) (hid : strconvAtoi idStr = some i) :
    GetUser st idStr = HResult.notFound ∧
    DeleteUser st idStr claimId = (HResult.notFound, st) ∧
    UpdateUser st idStr claimId b = (HResult.invalidBody, st) := by
  unfold GetUser DeleteUser UpdateUser
  rw [hid]
  exact ⟨rfl, rfl, rfl⟩

/-- Claim C10, witness: the store holds `amy` with id 1 and the request
addresses id 1 with a well-formed body, yet all three handlers take
their early exits. -/
theorem nil_target_handlers_unreachable_witness :
    GetUser w10Store "1" = HResult.notFound ∧
    DeleteUser w10Store "1" "amy" = (HResult.notFound, w10Store) ∧
    UpdateUser w10Store "1" "amy" w10Body = (HResult.invalidBody, w10Store) :=
  nil_target_handlers_unreachable w10Store "1" "amy" w10Body 1 (by decide)

end Users
